import Mathlib

/-!
Verification development for the Power BI AI reasoning pipeline
(`modules/ai/context_builder.py`, `modules/ai/reasoning_engine.py`,
`modules/ai/azure_openai_client.py`, `modules/ai/response_formatter.py`,
`modules/mcp/intelligent_tools.py`).

The Python code is shallowly embedded: pure functions become Lean
functions, floating point scores become `ℚ`, awaited collaborator calls
become explicit environment parameters, raised exceptions become
`Except` values, and wall-clock readings (`datetime.now()`) become
explicit parameters.
-/

/-! ### String helpers mirroring the Python primitives used by the code -/

/-- Substring test on character lists: `pat` occurs inside `s`
(the Python `pat in s` operator on strings). -/
def charsInfix (pat s : List Char) : Bool :=
  match s with
  | [] => pat.isEmpty
  | _ :: tail => pat.isPrefixOf s || charsInfix pat tail

/-- Python `pat in s` substring containment. -/
def strContains (s pat : String) : Bool := charsInfix pat.data s.data

/-- Python `str.lower()` (ASCII case folding, which covers every literal
the code compares against). -/
def pyLower (s : String) : String := ⟨s.data.map Char.toLower⟩

/-- Python `str.split()` with no argument: split on whitespace runs,
producing no empty fragments. -/
def pySplitAux : List Char → List Char → List String
  | [], [] => []
  | [], acc => [⟨acc.reverse⟩]
  | c :: cs, acc =>
    if c.isWhitespace then
      if acc.isEmpty then pySplitAux cs []
      else ⟨acc.reverse⟩ :: pySplitAux cs []
    else pySplitAux cs (c :: acc)

/-- Python `str.split()` (whitespace, empty fragments dropped). -/
def pySplit (s : String) : List String := pySplitAux s.data []

/-- Python `sep.join(parts)`. -/
def pyJoin (sep : String) : List String → String
  | [] => ""
  | [p] => p
  | p :: rest => p ++ sep ++ pyJoin sep rest

/-- Python `str.strip()`: drop leading and trailing whitespace. -/
def pyStrip (s : String) : String :=
  ⟨((s.data.dropWhile Char.isWhitespace).reverse.dropWhile Char.isWhitespace).reverse⟩

/-- First-match lookup in an association list
(Python `dict.get(key, default)` over the literal tables of the code). -/
def assocLookup (table : List (String × α)) (key : String) (dflt : α) : α :=
  match table with
  | [] => dflt
  | (k, v) :: rest => if k = key then v else assocLookup rest key dflt

/-! ### Data model (`modules/powerbi/models.py`) -/

/-- `WorkspaceInfo` (the fields the AI pipeline reads). -/
structure WorkspaceInfo where
  id : String
  name : String
deriving Repr, DecidableEq

/-- `DatasetInfo` (the fields the AI pipeline reads).  `relevance_score`
models the attribute `_find_relevant_datasets` attaches dynamically;
it defaults to `0` exactly as `getattr(ds, 'relevance_score', 0)` does. -/
structure DatasetInfo where
  id : String
  name : String
  workspace_id : String
  workspace_name : String
  relevance_score : ℚ := 0
deriving Repr, DecidableEq

/-- A result row: a mapping of column name to (stringified) value. -/
abbrev Row := List (String × String)

/-- `QueryResult` from `models.py` (fields the pipeline reads;
`data` is `None` or a list, like the Optional field in the source). -/
structure QueryResult where
  success : Bool
  data : Option (List Row) := none
  error : Option String := none
  row_count : Nat := 0
  dataset_id : Option String := none
deriving Repr, DecidableEq

/-- Python truthiness of `query_result.data`: non-`None` and non-empty. -/
def QueryResult.dataTruthy (qr : QueryResult) : Bool :=
  match qr.data with
  | none => false
  | some rows => !rows.isEmpty

/-! ### Context builder data model (`modules/ai/context_builder.py`) -/

/-- `BusinessContext` dataclass. -/
structure BusinessContext where
  domain : String := "General Business"
  time_period : String := "Current"
  key_metrics : List String := []
  business_rules : List String := []
deriving Repr, DecidableEq

/-- One entry of `schema_info["tables"]` as built by `_build_schema_context`. -/
structure SchemaTableEntry where
  dataset : String
  workspace : String
  estimated_tables : Nat
deriving Repr, DecidableEq

/-- The `schema_info` dictionary built by `_build_schema_context`.
The empty default models the initial `{}` of the dataclass (reads of
missing keys use the same defaults the Python `.get` calls use). -/
structure SchemaInfo where
  tables : List SchemaTableEntry := []
  measures : List String := []
  date_columns : List String := []
  relationships : List String := []
  estimated_size : String := "Unknown"
deriving Repr, DecidableEq

/-- The `time_context` dictionary built by `_build_time_context`. -/
structure TimeContext where
  current_date : String := ""
  current_quarter : String := ""
  current_month : String := ""
  current_year : String := ""
  last_quarter : String := ""
  last_month : String := ""
  ytd_start : String := ""
  suggested_periods : List String := []
deriving Repr, DecidableEq

/-- `PowerBIContext` dataclass (the AI-analysis context). -/
structure PowerBIContext where
  query : String
  intent : String
  available_workspaces : List WorkspaceInfo := []
  relevant_datasets : List DatasetInfo := []
  schema_info : SchemaInfo := {}
  recent_queries : List String := []
  query_patterns : List (String × Nat) := []
  business_context : BusinessContext := {}
  time_context : TimeContext := {}
  performance_hints : List String := []
  estimated_complexity : String := "Medium"
deriving Repr, DecidableEq

/-- An entry of the context builder's `_query_history` rolling list. -/
structure HistoryEntry where
  query : String
  intent : String
  timestamp : Nat
deriving Repr, DecidableEq

/-- The catalog collaborator (`PowerBIClient`) as the context builder
sees it: each awaited call either returns a listing or raises.
(`client.py` itself catches its I/O errors and returns `[]`, which is
the `.ok []` instantiation; the `Except.error` case models a raised
exception reaching `_build_powerbi_context`'s `try`.) -/
structure Catalog where
  get_workspaces : Except String (List WorkspaceInfo)
  get_datasets : String → Except String (List DatasetInfo)

/-! ### `PowerBIContextBuilder._classify_intent` -/

/-- `_classify_intent`: first keyword bucket, in source order, with a
member occurring in the lowercased query wins; else `general_analysis`. -/
def classify_intent (user_query : String) : String :=
  let query_lower := pyLower user_query
  if ["sales", "revenue", "profit", "income"].any (fun w => strContains query_lower w) then
    "sales_analysis"
  else if ["performance", "kpi", "metric", "target"].any (fun w => strContains query_lower w) then
    "performance_analysis"
  else if ["trend", "growth", "change", "over time", "quarterly", "monthly"].any
      (fun w => strContains query_lower w) then
    "trend_analysis"
  else if ["compare", "vs", "versus", "difference", "better", "worse"].any
      (fun w => strContains query_lower w) then
    "comparison_analysis"
  else if ["top", "bottom", "best", "worst", "highest", "lowest"].any
      (fun w => strContains query_lower w) then
    "ranking_analysis"
  else if ["customer", "client", "account", "segment"].any (fun w => strContains query_lower w) then
    "customer_analysis"
  else if ["product", "item", "category", "inventory"].any (fun w => strContains query_lower w) then
    "product_analysis"
  else if ["region", "country", "state", "city", "location", "geographic"].any
      (fun w => strContains query_lower w) then
    "geographic_analysis"
  else if ["budget", "cost", "expense", "margin", "roi", "financial"].any
      (fun w => strContains query_lower w) then
    "financial_analysis"
  else
    "general_analysis"

/-! ### `PowerBIContextBuilder._calculate_dataset_relevance` -/

/-- The `intent_weights` table of `_calculate_dataset_relevance`. -/
def intent_weights : List (String × List (String × ℚ)) :=
  [("sales_analysis", [("sales", 0.5), ("revenue", 0.5), ("order", 0.4)]),
   ("customer_analysis", [("customer", 0.5), ("client", 0.4), ("crm", 0.6)]),
   ("financial_analysis", [("finance", 0.5), ("budget", 0.4), ("accounting", 0.5)])]

/-- `_calculate_dataset_relevance`: keyword hits in the dataset name at
`0.3` each, plus the per-intent keyword weights, plus `0.2` when any
search term occurs in the workspace name, capped at `1.0`. -/
def calculate_dataset_relevance (dataset : DatasetInfo) (search_terms : List String)
    (intent : String) : ℚ :=
  let dataset_name_lower := pyLower dataset.name
  let score₁ := search_terms.foldl
    (fun score term => if strContains dataset_name_lower term then score + 0.3 else score) 0
  let score₂ := (assocLookup intent_weights intent []).foldl
    (fun score kw => if strContains dataset_name_lower kw.1 then score + kw.2 else score) score₁
  let workspace_name_lower := pyLower dataset.workspace_name
  let score₃ :=
    if search_terms.any (fun term => strContains workspace_name_lower term) then score₂ + 0.2
    else score₂
  min score₃ 1

/-- The `intent_keywords` table of `_find_relevant_datasets`. -/
def intent_keywords : List (String × List String) :=
  [("sales_analysis", ["sales", "revenue", "order", "transaction"]),
   ("customer_analysis", ["customer", "client", "account", "crm"]),
   ("product_analysis", ["product", "inventory", "item", "catalog"]),
   ("financial_analysis", ["finance", "budget", "accounting", "expense"]),
   ("performance_analysis", ["performance", "kpi", "metric", "dashboard"])]

/-- The search-term list `_find_relevant_datasets` scores against:
fixed per-intent keywords followed by the lowercased query's words. -/
def searchTermsFor (ctx : PowerBIContext) : List String :=
  assocLookup intent_keywords ctx.intent [] ++ pySplit (pyLower ctx.query)

/-- The candidate accumulation loop of `_find_relevant_datasets`: walk
every workspace (a failing `get_datasets` call is caught and skipped)
and keep each dataset scoring strictly above `0.3`, with the score
attached to it. -/
def found_datasets (cat : Catalog) (ctx : PowerBIContext) : List DatasetInfo :=
  let search_terms := searchTermsFor ctx
  ctx.available_workspaces.foldl
    (fun acc ws =>
      match cat.get_datasets ws.id with
      | .error _ => acc
      | .ok datasets =>
        acc ++ datasets.filterMap (fun ds =>
          let score := calculate_dataset_relevance ds search_terms ctx.intent
          if score > 0.3 then some { ds with relevance_score := score } else none))
    []

/-- `_find_relevant_datasets`: accumulate the scored candidates, sort
descending by score (stably, like `sorted(..., reverse=True)`), keep
the top 5. -/
def find_relevant_datasets (cat : Catalog) (ctx : PowerBIContext) : PowerBIContext :=
  { ctx with relevant_datasets :=
      ((found_datasets cat ctx).mergeSort
        (fun a b => b.relevance_score ≤ a.relevance_score)).take 5 }

/-! ### Remaining context-builder steps -/

/-- `_estimate_table_count`: name-pattern heuristic for the table count. -/
def estimate_table_count (dataset : DatasetInfo) : Nat :=
  let name_lower := pyLower dataset.name
  if strContains name_lower "warehouse" || strContains name_lower "dwh" then 15
  else if strContains name_lower "cube" || strContains name_lower "olap" then 8
  else if strContains name_lower "report" then 5
  else 10

/-- `_build_schema_context`: one `tables` entry per relevant dataset. -/
def build_schema_context (ctx : PowerBIContext) : PowerBIContext :=
  { ctx with schema_info :=
      { tables := ctx.relevant_datasets.map (fun ds =>
          { dataset := ds.name
            workspace := ds.workspace_name
            estimated_tables := estimate_table_count ds }) } }

/-- `_build_powerbi_context`: list workspaces, find relevant datasets and
build the schema summary; a raised error is caught and recorded as an
appended performance hint (`relevant_datasets` is left empty then). -/
def build_powerbi_context (cat : Catalog) (ctx : PowerBIContext) : PowerBIContext :=
  match cat.get_workspaces with
  | .error _ =>
    { ctx with performance_hints :=
        ctx.performance_hints ++ ["Limited Power BI context due to connection issues"] }
  | .ok workspaces =>
    let ctx := { ctx with available_workspaces := workspaces }
    let ctx := find_relevant_datasets cat ctx
    build_schema_context ctx

/-- The `intent_domains` table of `_build_business_context`. -/
def intent_domains : List (String × String) :=
  [("sales_analysis", "Sales & Marketing"),
   ("customer_analysis", "Customer Relations"),
   ("financial_analysis", "Finance & Accounting"),
   ("product_analysis", "Product Management"),
   ("performance_analysis", "Business Intelligence")]

/-- The `business_rules` table of `_build_business_context`. -/
def business_rules_table : List (String × List String) :=
  [("sales_analysis",
    ["Focus on revenue trends and growth",
     "Consider seasonality in retail data",
     "Analyze by product, region, and time period"]),
   ("customer_analysis",
    ["Prioritize customer lifetime value",
     "Consider customer segmentation",
     "Analyze retention and churn patterns"]),
   ("financial_analysis",
    ["Ensure data accuracy for financial reporting",
     "Consider fiscal year vs calendar year",
     "Include budget vs actual comparisons"])]

/-- `_build_business_context`: map the intent to a business domain and a
fixed rule list. -/
def build_business_context (ctx : PowerBIContext) : PowerBIContext :=
  { ctx with business_context :=
      { domain := assocLookup intent_domains ctx.intent "General Business"
        business_rules := assocLookup business_rules_table ctx.intent [] } }

/-- The `datetime.now()` reading `_build_time_context` formats from. -/
structure PyDate where
  year : Int
  month : Nat
  iso : String
deriving Repr, DecidableEq

/-- Python `datetime.strftime("%B")` month names. -/
def monthName (month : Nat) : String :=
  assocLookup
    [("1", "January"), ("2", "February"), ("3", "March"), ("4", "April"),
     ("5", "May"), ("6", "June"), ("7", "July"), ("8", "August"),
     ("9", "September"), ("10", "October"), ("11", "November"), ("12", "December")]
    (toString month) "Unknown"

/-- `_get_last_quarter`. -/
def get_last_quarter (date : PyDate) : String :=
  let current_quarter := (date.month - 1) / 3 + 1
  if current_quarter = 1 then "Q4 " ++ toString (date.year - 1)
  else "Q" ++ toString (current_quarter - 1) ++ " " ++ toString date.year

/-- The `period_suggestions` table of `_get_suggested_time_periods`. -/
def period_suggestions : List (String × List String) :=
  [("trend_analysis", ["Last 12 months", "Quarter over quarter", "Year over year"]),
   ("sales_analysis", ["Monthly trends", "Quarterly performance", "YTD vs last year"]),
   ("performance_analysis", ["Current vs target", "Monthly variance", "Quarterly trends"]),
   ("comparison_analysis",
    ["Period over period", "Same period last year", "Benchmark comparison"])]

/-- `_get_suggested_time_periods`. -/
def get_suggested_time_periods (intent : String) : List String :=
  assocLookup period_suggestions intent
    ["Current period", "Historical trend", "Comparative analysis"]

/-- The month before `now` (`now.replace(day=1) - timedelta(days=1)`
always lands in the previous calendar month). -/
def previousMonth (now : PyDate) : Nat × Int :=
  if now.month = 1 then (12, now.year - 1) else (now.month - 1, now.year)

/-- `_build_time_context`. -/
def build_time_context (now : PyDate) (ctx : PowerBIContext) : PowerBIContext :=
  { ctx with time_context :=
      { current_date := now.iso
        current_quarter := "Q" ++ toString ((now.month - 1) / 3 + 1) ++ " " ++ toString now.year
        current_month := monthName now.month ++ " " ++ toString now.year
        current_year := toString now.year
        last_quarter := get_last_quarter now
        last_month := monthName (previousMonth now).1 ++ " " ++ toString (previousMonth now).2
        ytd_start := toString now.year ++ "-01-01"
        suggested_periods := get_suggested_time_periods ctx.intent } }

/-- Bump a key's count in an insertion-ordered counting dict. -/
def bumpCount (counts : List (String × Nat)) (key : String) : List (String × Nat) :=
  match counts with
  | [] => [(key, 1)]
  | (k, n) :: rest => if k = key then (k, n + 1) :: rest else (k, n) :: bumpCount rest key

/-- `_build_historical_context`: append the current query to the rolling
history, truncate to the last 10 entries, expose the last 5 queries and
the intent-frequency counts.  Returns the updated context together with
the builder's new `_query_history` state. -/
def build_historical_context (history : List HistoryEntry) (now_ts : Nat)
    (ctx : PowerBIContext) : PowerBIContext × List HistoryEntry :=
  let history := history ++ [{ query := ctx.query, intent := ctx.intent, timestamp := now_ts }]
  let history := if history.length > 10 then history.drop (history.length - 10) else history
  let recent := (history.drop (history.length - 5)).map (·.query)
  let patterns := history.foldl (fun counts entry => bumpCount counts entry.intent) []
  ({ ctx with recent_queries := recent, query_patterns := patterns }, history)

/-- The `intent_complexity` table of `_estimate_complexity`. -/
def intent_complexity : List (String × ℚ) :=
  [("general_analysis", 0.3), ("sales_analysis", 0.5), ("trend_analysis", 0.7),
   ("comparison_analysis", 0.8), ("performance_analysis", 0.6)]

/-- The weighted complexity score of `_estimate_complexity`. -/
def complexityScore (ctx : PowerBIContext) : ℚ :=
  ctx.relevant_datasets.length * 0.2
    + min ((ctx.schema_info.tables.map (·.estimated_tables)).sum * (0.1 : ℚ)) 2.0
    + assocLookup intent_complexity ctx.intent 0.5

/-- `_estimate_complexity`: derive the complexity label and *replace*
`performance_hints` with the canned hints of the matching bucket. -/
def estimate_complexity (ctx : PowerBIContext) : PowerBIContext :=
  let complexity_score := complexityScore ctx
  if complexity_score < 1.0 then
    { ctx with estimated_complexity := "Low"
               performance_hints := ["Simple query expected", "Fast execution likely"] }
  else if complexity_score < 2.0 then
    { ctx with estimated_complexity := "Medium"
               performance_hints := ["Moderate complexity", "Consider data volume"] }
  else
    { ctx with estimated_complexity := "High"
               performance_hints :=
                 ["Complex analysis detected", "May require multiple queries",
                  "Consider breaking into smaller parts"] }

/-- `build_context`: the context builder's single entry point.  Never
raises: the only fallible step (`_build_powerbi_context`) catches its
errors internally.  Returns the context and the updated history state. -/
def build_context (cat : Catalog) (history : List HistoryEntry) (now : PyDate) (now_ts : Nat)
    (user_query : String) : PowerBIContext × List HistoryEntry :=
  let ctx : PowerBIContext := { query := user_query, intent := classify_intent user_query }
  let ctx := build_powerbi_context cat ctx
  let ctx := build_business_context ctx
  let ctx := build_time_context now ctx
  let (ctx, history) := build_historical_context history now_ts ctx
  let ctx := estimate_complexity ctx
  (ctx, history)

/-! ### Azure OpenAI client (`modules/ai/azure_openai_client.py`) -/

/-- `ThinkingProcess` dataclass. -/
structure ThinkingProcess where
  user_intent : String
  analysis_plan : List String
  context_summary : String
  reasoning_steps : List String
  dax_queries : List String
  confidence_score : ℚ
  timestamp : Nat
deriving Repr, DecidableEq

/-- The JSON object a successful `reasoning_analysis` call parses;
optional fields model `thinking_data.get(key, default)`. -/
structure ThinkingData where
  user_intent : Option String := none
  analysis_plan : Option (List String) := none
  context_summary : Option String := none
  reasoning_steps : Option (List String) := none
  dax_queries : Option (List String) := none
  confidence_score : Option ℚ := none
deriving Repr, DecidableEq

/-- The JSON object a successful `generate_dax_query` call parses, or the
error-keyed dictionary either failure branch returns.  Optional fields
model the callers' `dax_result.get(key, default)` reads. -/
structure DaxData where
  primary_query : Option String := none
  alternative_queries : Option (List String) := none
  explanation : Option String := none
  estimated_performance : Option String := none
  required_tables : Option (List String) := none
  confidence : Option ℚ := none
  error : Option String := none
deriving Repr, DecidableEq

/-- The insight dictionary flowing out of `analyze_results` /
`_generate_insights`; optional fields model the keys the producers may
or may not set and the consumers read with `.get`. -/
structure Insights where
  insights : Option (List String) := none
  recommendations : Option (List String) := none
  summary : Option String := none
  key_insights : Option (List String) := none
  trends_identified : Option (List String) := none
  data_quality_notes : Option (List String) := none
  confidence_level : Option String := none
  executive_summary : Option String := none
  data : Option (List Row) := none
  error : Option String := none
deriving Repr, DecidableEq

/-- The analysis-context dictionary `_generate_insights` hands to
`analyze_results`. -/
structure InsightContext where
  user_intent : String
  business_domain : String
  time_context : String
deriving Repr, DecidableEq

/-- The schema-context dictionary `smart_dax_generation` hands to
`generate_dax_query`. -/
structure DaxSchemaContext where
  tables : List String
  workspace_names : List String
  intent : String
  business_domain : String
deriving Repr, DecidableEq

/-- The external collaborators of one pipeline run: the catalog service,
the four language-model reply channels (each models HTTP status,
network, timeout and JSON-parsing failures as `Except.error`), the DAX
execution endpoint (total per `client.py`'s contract: it maps its own
failures into `QueryResult`), and the clock readings. -/
structure AIEnv where
  catalog : Catalog
  reasoning_reply : String → PowerBIContext → Except String ThinkingData
  dax_reply : String → DaxSchemaContext → Except String DaxData
  analyze_reply : List Row → InsightContext → Except String Insights
  format_reply : Insights → ThinkingProcess → Except String String
  execute_dax : String → String → QueryResult
  now : PyDate
  now_ts : Nat

/-- `_create_fallback_thinking`: the deterministic plan returned when the
reasoning call fails. -/
def create_fallback_thinking (user_query : String) (now_ts : Nat) : ThinkingProcess :=
  { user_intent := "Analyze: " ++ user_query
    analysis_plan := ["Retrieve data", "Analyze results", "Generate insights"]
    context_summary := "Limited context available"
    reasoning_steps := ["Process user request", "Execute queries", "Format response"]
    dax_queries := []
    confidence_score := 0.3
    timestamp := now_ts }

/-- `AzureOpenAIClient.reasoning_analysis`: parse the reply into a
`ThinkingProcess` (missing keys default exactly as the `.get` calls do);
any failure yields the fallback thinking.  Never raises. -/
def reasoning_analysis (env : AIEnv) (user_query : String) (ctx : PowerBIContext) :
    ThinkingProcess :=
  match env.reasoning_reply user_query ctx with
  | .ok d =>
    { user_intent := d.user_intent.getD ""
      analysis_plan := d.analysis_plan.getD []
      context_summary := d.context_summary.getD ""
      reasoning_steps := d.reasoning_steps.getD []
      dax_queries := d.dax_queries.getD []
      confidence_score := d.confidence_score.getD 0.5
      timestamp := env.now_ts }
  | .error _ => create_fallback_thinking user_query env.now_ts

/-- `AzureOpenAIClient.generate_dax_query`: the parsed reply on success,
an error-keyed dictionary on any failure.  Never raises. -/
def generate_dax_query (env : AIEnv) (intent : String) (schema_context : DaxSchemaContext) :
    DaxData :=
  match env.dax_reply intent schema_context with
  | .ok d => d
  | .error msg => { error := some ("DAX generation failed: " ++ msg) }

/-- `AzureOpenAIClient.analyze_results`: the parsed reply on success, an
error-keyed dictionary on any failure.  Never raises. -/
def analyze_results (env : AIEnv) (data : List Row) (context : InsightContext) : Insights :=
  match env.analyze_reply data context with
  | .ok parsed => parsed
  | .error msg => { error := some ("Analysis failed: " ++ msg) }

/-- `AzureOpenAIClient._create_fallback_response`. -/
def azure_fallback_response (analysis : Insights) : String :=
  "📊 **Analysis Results**\n\nData retrieved successfully with "
    ++ toString (analysis.data.getD []).length
    ++ " records.\n\n💡 **Note**: Detailed analysis formatting unavailable - please review raw results."

/-- `AzureOpenAIClient.format_business_response`: the model's text on
success, else the deterministic local fallback.  Never raises. -/
def format_business_response (env : AIEnv) (analysis : Insights) (thinking : ThinkingProcess) :
    String :=
  match env.format_reply analysis thinking with
  | .ok text => text
  | .error _ => azure_fallback_response analysis

/-! ### Reasoning engine (`modules/ai/reasoning_engine.py`) -/

/-- `AnalysisResult` dataclass. -/
structure AnalysisResult where
  thinking : ThinkingProcess
  response : String
  query_results : List QueryResult := []
  data : List Row := []
  confidence : ℚ := 0.0
  execution_time_ms : Nat := 0
  datasets_used : List String := []
  success : Bool := true
  error_message : Option String := none
  warnings : List String := []
deriving Repr, DecidableEq

/-- `_generate_fallback_queries`: one per-intent template query against
the most relevant dataset. -/
def generate_fallback_queries (ctx : PowerBIContext) : List String :=
  match ctx.relevant_datasets with
  | [] => []
  | dataset :: _ =>
    if ctx.intent = "sales_analysis" then
      ["EVALUATE TOPN(10, SUMMARIZE(" ++ dataset.name
        ++ ", [Product], \"Total Sales\", SUM([Sales Amount])), [Total Sales], DESC)"]
    else if ctx.intent = "trend_analysis" then
      ["EVALUATE SUMMARIZE(" ++ dataset.name ++ ", [Date], \"Value\", SUM([Amount]))"]
    else
      ["EVALUATE SUMMARIZE(" ++ dataset.name ++ ", \"Row Count\", COUNTROWS("
        ++ dataset.name ++ "))"]

/-- `_assess_context_quality`: base `0.5` plus additive bonuses, capped
at `1.0`. -/
def assess_context_quality (ctx : PowerBIContext) : ℚ :=
  let quality_score : ℚ := 0.5
  let quality_score := if !ctx.relevant_datasets.isEmpty then quality_score + 0.2 else quality_score
  let quality_score :=
    if ctx.relevant_datasets.length > 1 then quality_score + 0.1 else quality_score
  let quality_score := if !ctx.schema_info.tables.isEmpty then quality_score + 0.1 else quality_score
  let quality_score :=
    if !ctx.business_context.business_rules.isEmpty then quality_score + 0.1 else quality_score
  min quality_score 1.0

/-- `_enhance_thinking_with_context`: synthesize fallback queries when
the plan has none, rescale confidence by the context-quality multiplier,
and append an advisory step at high complexity. -/
def enhance_thinking_with_context (ctx : PowerBIContext) (thinking : ThinkingProcess) :
    ThinkingProcess :=
  let thinking :=
    if thinking.dax_queries.isEmpty && !ctx.relevant_datasets.isEmpty then
      { thinking with dax_queries := generate_fallback_queries ctx }
    else thinking
  let context_quality_score := assess_context_quality ctx
  let thinking :=
    { thinking with confidence_score := min (thinking.confidence_score * context_quality_score) 1.0 }
  if ctx.estimated_complexity = "High" then
    { thinking with reasoning_steps :=
        thinking.reasoning_steps ++ ["Consider query optimization due to high complexity"] }
  else thinking

/-- `_internal_reasoning`: the reasoning call followed by the local
enhancement.  Both callees are total (the client catches its own
failures), so the method's `except` fallback is unreachable. -/
def internal_reasoning (env : AIEnv) (user_query : String) (ctx : PowerBIContext) :
    ThinkingProcess :=
  enhance_thinking_with_context ctx (reasoning_analysis env user_query ctx)

/-- The `results` accumulator of `_execute_analysis_plan`. -/
structure ExecResults where
  query_results : List QueryResult := []
  data : List Row := []
  execution_summary : List String := []
deriving Repr, DecidableEq

/-- One iteration of the query loop of `_execute_analysis_plan`:
skip when no relevant dataset exists, otherwise execute against the
primary dataset, record the result and concatenate successful rows. -/
def execute_plan_step (env : AIEnv) (ctx : PowerBIContext) (acc : ExecResults) (i : Nat)
    (dax_query : String) : ExecResults :=
  match ctx.relevant_datasets with
  | [] => acc
  | dataset :: _ =>
    let query_result := env.execute_dax dataset.id dax_query
    let acc := { acc with query_results := acc.query_results ++ [query_result] }
    if query_result.success && query_result.dataTruthy then
      { acc with
          data := acc.data ++ query_result.data.getD []
          execution_summary := acc.execution_summary
            ++ ["Query " ++ toString (i + 1) ++ ": " ++ toString query_result.row_count
                  ++ " rows retrieved"] }
    else
      { acc with execution_summary := acc.execution_summary
          ++ ["Query " ++ toString (i + 1) ++ ": Failed - "
                ++ query_result.error.getD "Unknown error"] }

/-- `_execute_fallback_analysis`: one probe query (a trivial row naming
the dataset) against the primary dataset. -/
def execute_fallback_analysis (env : AIEnv) (results : ExecResults) (ctx : PowerBIContext) :
    ExecResults :=
  match ctx.relevant_datasets with
  | [] => results
  | dataset :: _ =>
    let basic_query := "EVALUATE ROW(\"Dataset\", \"" ++ dataset.name ++ "\", \"Workspace\", \""
      ++ dataset.workspace_name ++ "\")"
    let query_result := env.execute_dax dataset.id basic_query
    let results := { results with query_results := results.query_results ++ [query_result] }
    if query_result.success then
      { results with
          data := query_result.data.getD []
          execution_summary := results.execution_summary
            ++ ["Fallback analysis: Basic dataset info retrieved"] }
    else
      { results with execution_summary := results.execution_summary
          ++ ["Fallback analysis also failed"] }

/-- `_execute_analysis_plan`: run every planned query in order, then —
only when no query result was collected at all and a relevant dataset
exists — run the single fallback probe. -/
def execute_analysis_plan (env : AIEnv) (thinking : ThinkingProcess) (ctx : PowerBIContext) :
    ExecResults :=
  let results := thinking.dax_queries.enum.foldl
    (fun acc iq => execute_plan_step env ctx acc iq.1 iq.2) {}
  if results.query_results.isEmpty && !ctx.relevant_datasets.isEmpty then
    execute_fallback_analysis env results ctx
  else results

/-- The canned insight set `_generate_insights` returns for empty rows,
before any language-model call is made. -/
def no_data_insights : Insights :=
  { insights := some ["No data available for analysis"]
    recommendations := some ["Check data availability and query validity"]
    summary := some "Analysis could not be completed due to lack of data" }

/-- `_generate_insights`: short-circuit to the canned no-data set on
empty rows; otherwise ask the insight channel (which is total, making
the method's `except` fallback unreachable). -/
def generate_insights (env : AIEnv) (results : ExecResults) (ctx : PowerBIContext)
    (thinking : ThinkingProcess) : Insights :=
  if results.data.isEmpty then no_data_insights
  else
    analyze_results env results.data
      { user_intent := thinking.user_intent
        business_domain := ctx.business_context.domain
        time_context := ctx.time_context.current_quarter }

/-- `_create_error_response`: the locally built error-explanation text. -/
def create_error_response (error_message : String) : String :=
  "⚠️ **Analysis Error**\n\nI encountered an issue while analyzing your Power BI data:\n\n**Error**: "
    ++ error_message
    ++ "\n\n**💡 Suggestions**:\n• Check your Power BI data connections\n• Verify dataset permissions\n• Try rephrasing your question\n• Contact your administrator if the issue persists\n\nI'm ready to help once the issue is resolved!"

/-- The five sequential stage computations of `analyze_request`'s `try`
block; an `Except.error` models a stage raising. -/
def analyze_run (stage_context : Except String PowerBIContext)
    (stage_reasoning : PowerBIContext → Except String ThinkingProcess)
    (stage_execute : PowerBIContext → ThinkingProcess → Except String ExecResults)
    (stage_insights : PowerBIContext → ThinkingProcess → ExecResults → Except String Insights)
    (stage_format : ThinkingProcess → Insights → Except String String) :
    Except String (PowerBIContext × ThinkingProcess × ExecResults × Insights × String) := do
  let context ← stage_context
  let thinking ← stage_reasoning context
  let results ← stage_execute context thinking
  let insights ← stage_insights context thinking results
  let response ← stage_format thinking insights
  pure (context, thinking, results, insights, response)

/-- `analyze_request`'s control flow: build the successful
`AnalysisResult` from the five stage outputs, or catch the first stage
error at the orchestrator boundary and build the terminal degraded
result.  (`execution_time_ms` measures wall-clock time; it is abstracted
to `0`.) -/
def analyze_pipeline (stage_context : Except String PowerBIContext)
    (stage_reasoning : PowerBIContext → Except String ThinkingProcess)
    (stage_execute : PowerBIContext → ThinkingProcess → Except String ExecResults)
    (stage_insights : PowerBIContext → ThinkingProcess → ExecResults → Except String Insights)
    (stage_format : ThinkingProcess → Insights → Except String String)
    (user_query : String) (now_ts : Nat) : AnalysisResult :=
  match analyze_run stage_context stage_reasoning stage_execute stage_insights stage_format with
  | .ok (context, thinking, results, _insights, response) =>
    { thinking := thinking
      response := response
      query_results := results.query_results
      data := results.data
      confidence := thinking.confidence_score
      datasets_used := context.relevant_datasets.map (·.name)
      success := true }
  | .error e =>
    { thinking :=
        { user_intent := user_query
          analysis_plan := ["Error occurred during analysis"]
          context_summary := "Analysis failed"
          reasoning_steps := ["Error: " ++ e]
          dax_queries := []
          confidence_score := 0.0
          timestamp := now_ts }
      response := create_error_response e
      success := false
      error_message := some e }

/-- `analyze_request` with the concrete stages of the source: every
collaborator failure is already absorbed below the orchestrator, so each
stage is a total function lifted into the pipeline. -/
def analyze_request (env : AIEnv) (history : List HistoryEntry) (user_query : String)
    (analysis_depth : String := "standard") : AnalysisResult :=
  let _ := analysis_depth
  analyze_pipeline
    (.ok (build_context env.catalog history env.now env.now_ts user_query).1)
    (fun ctx => .ok (internal_reasoning env user_query ctx))
    (fun ctx thinking => .ok (execute_analysis_plan env thinking ctx))
    (fun ctx thinking results => .ok (generate_insights env results ctx thinking))
    (fun thinking insights => .ok (format_business_response env insights thinking))
    user_query env.now_ts

/-! ### Teams response formatter (`modules/ai/response_formatter.py`) -/

/-- `FormattingOptions` dataclass with its defaults. -/
structure FormattingOptions where
  use_emojis : Bool := true
  include_executive_summary : Bool := true
  include_recommendations : Bool := true
  include_data_summary : Bool := true
  max_insights : Nat := 5
  business_tone : Bool := true
  include_confidence : Bool := false
deriving Repr, DecidableEq

/-- The formatter's `emoji_map` (the literals are copied byte-for-byte
from the source file, mojibake included). -/
def emoji_map : List (String × String) :=
  [("success", "âœ…"), ("analysis", "ðŸ“Š"), ("insight", "ðŸ’¡"),
   ("recommendation", "ðŸ“ˆ"), ("warning", "âš ï¸"), ("error", "âŒ"),
   ("trend_up", "ðŸ“ˆ"), ("trend_down", "ðŸ“‰"), ("trend_stable", "âž¡ï¸"),
   ("money", "ðŸ’°"), ("customer", "ðŸ‘¥"), ("product", "ðŸ“¦"),
   ("time", "â°"), ("target", "ðŸŽ¯"), ("performance", "ðŸ“Š")]

/-- Python `str.replace("_", " ")` (single-character form). -/
def replaceUnderscores (s : String) : String :=
  ⟨s.data.map (fun ch => if ch = '_' then ' ' else ch)⟩

/-- Python `str.title()` over ASCII: an alphabetic character is
uppercased after a non-alphabetic one and lowercased otherwise. -/
def pyTitleAux : List Char → Bool → List Char
  | [], _ => []
  | ch :: rest, prevAlpha =>
    (if ch.isAlpha then (if prevAlpha then ch.toLower else ch.toUpper) else ch)
      :: pyTitleAux rest ch.isAlpha

/-- Python `str.title()`. -/
def pyTitle (s : String) : String := ⟨pyTitleAux s.data false⟩

/-- `_format_intent_title`: snake_case to Title Case with the fixed
override table. -/
def format_intent_title (user_intent : String) : String :=
  let title := pyTitle (replaceUnderscores user_intent)
  assocLookup
    [("Sales Analysis", "Sales Performance Analysis"),
     ("Customer Analysis", "Customer Insights Analysis"),
     ("Product Analysis", "Product Performance Analysis"),
     ("Financial Analysis", "Financial Performance Analysis"),
     ("Trend Analysis", "Trend & Growth Analysis"),
     ("General Analysis", "Business Intelligence Analysis")]
    title title

/-- Digit grouping for Python's `{:,}` format: commas every three
digits, working over the reversed digit list. -/
def groupThrees (ds : List Char) : List Char :=
  if _h : ds.length ≤ 3 then ds
  else ds.take 3 ++ ',' :: groupThrees (ds.drop 3)
termination_by ds.length
decreasing_by simp [List.length_drop]; omega

/-- Python `f"{n:,}"` for a natural number. -/
def natCommas (n : Nat) : String :=
  ⟨(groupThrees (Nat.toDigits 10 n).reverse).reverse⟩

/-- Python `f"{x:.0%}"` (percentage, rounded to an integer; the source
formats a float, whose round-half-even at the exact midpoint is
approximated by `round`). -/
def pct0 (x : ℚ) : String := toString (round (x * 100) : ℤ) ++ "%"

/-- `_get_confidence_emoji`. -/
def get_confidence_emoji (confidence : ℚ) : String :=
  if confidence ≥ 0.8 then "ðŸŸ¢"
  else if confidence ≥ 0.6 then "ðŸŸ¡"
  else "ðŸŸ "

/-- `_create_header_section`. -/
def create_header_section (opts : FormattingOptions) (r : AnalysisResult) : String :=
  let emoji := assocLookup emoji_map "analysis" "ðŸ“Š"
  let intent_title := format_intent_title r.thinking.user_intent
  let header_parts := [emoji ++ " **" ++ intent_title ++ "**"]
  let header_parts :=
    if opts.include_confidence && decide (r.confidence > 0) then
      header_parts ++ ["*" ++ get_confidence_emoji r.confidence ++ " Confidence: "
        ++ pct0 r.confidence ++ "*"]
    else header_parts
  pyJoin "\n" header_parts

/-- `_create_executive_summary`. -/
def create_executive_summary (r : AnalysisResult) : Option String :=
  if r.data.isEmpty then none
  else
    some (pyJoin "\n"
      ["**" ++ assocLookup emoji_map "insight" "ðŸ’¡" ++ " Executive Summary**",
       "Analyzed **" ++ natCommas r.data.length ++ " records** from **"
         ++ toString r.datasets_used.length ++ " dataset(s)** in "
         ++ natCommas r.execution_time_ms ++ "ms."])

/-- `_create_insights_section`. -/
def create_insights_section (r : AnalysisResult) : Option String :=
  if r.response = "" || pyStrip r.response = "" then none
  else if strContains r.response "**" || strContains r.response "*" then some r.response
  else
    some (pyJoin "\n"
      ["**" ++ assocLookup emoji_map "insight" "ðŸ’¡" ++ " Key Insights**", "", r.response])

/-- Python `"a.b".split(".")`-style split on one character, keeping
empty fragments. -/
def splitCharAux (c : Char) : List Char → List Char → List String
  | [], acc => [⟨acc.reverse⟩]
  | x :: xs, acc =>
    if x = c then ⟨acc.reverse⟩ :: splitCharAux c xs []
    else splitCharAux c xs (x :: acc)

/-- Python `s.split(".")`. -/
def pySplitDot (s : String) : List String := splitCharAux '.' s.data []

/-- `_extract_recommendations`: sentences mentioning
recommend/suggest, else the per-intent defaults; top 3. -/
def extract_recommendations (r : AnalysisResult) : List String :=
  let response_lower := pyLower r.response
  let recommendations :=
    if strContains response_lower "recommend" then
      (pySplitDot r.response).filterMap (fun sentence =>
        if strContains (pyLower sentence) "recommend" || strContains (pyLower sentence) "suggest"
        then
          let clean_sentence := pyStrip sentence
          if clean_sentence ≠ "" && clean_sentence.data.length > 10 then some clean_sentence
          else none
        else none)
    else []
  let recommendations :=
    if recommendations.isEmpty then
      let intent := pyLower r.thinking.user_intent
      if strContains intent "sales" then
        ["Focus on top-performing products and regions",
         "Investigate declining trends for improvement opportunities"]
      else if strContains intent "customer" then
        ["Enhance engagement with high-value customer segments",
         "Develop retention strategies for at-risk customers"]
      else
        ["Continue monitoring key performance indicators",
         "Schedule regular analysis updates"]
    else recommendations
  recommendations.take 3

/-- Number the top-three recommendations starting from 1
(`enumerate(recommendations[:3], 1)`). -/
def numberRecommendations (recs : List String) (i : Nat) : List String :=
  match recs with
  | [] => []
  | rec :: rest => (toString i ++ ". " ++ rec) :: numberRecommendations rest (i + 1)

/-- `_create_recommendations_section`. -/
def create_recommendations_section (r : AnalysisResult) : Option String :=
  let recommendations := extract_recommendations r
  if recommendations.isEmpty then none
  else
    some (pyJoin "\n"
      (("**" ++ assocLookup emoji_map "recommendation" "ðŸ“ˆ" ++ " Recommendations**")
        :: numberRecommendations (recommendations.take 3) 1))

/-- `_create_data_summary_section`. -/
def create_data_summary_section (r : AnalysisResult) : Option String :=
  if r.datasets_used.isEmpty then none
  else
    let summary_parts := ["**ðŸ“‹ Data Summary**"]
    let summary_parts :=
      if !r.datasets_used.isEmpty then
        summary_parts ++ ["**Sources**: " ++ pyJoin ", " r.datasets_used]
      else summary_parts
    let summary_parts :=
      if !r.data.isEmpty then summary_parts ++ ["**Records**: " ++ natCommas r.data.length]
      else summary_parts
    let summary_parts :=
      if r.execution_time_ms > 0 then
        summary_parts ++ ["**Response Time**: " ++ natCommas r.execution_time_ms ++ "ms"]
      else summary_parts
    some (pyJoin "\n" summary_parts)

/-- `_create_footer_section`; `ts` is the `datetime.now()` reading
formatted as `%Y-%m-%d %H:%M`. -/
def create_footer_section (ts : String) (r : AnalysisResult) : Option String :=
  let footer_parts :=
    if !r.warnings.isEmpty then
      [assocLookup emoji_map "warning" "âš ï¸" ++ " *" ++ pyJoin "; " r.warnings ++ "*"]
    else []
  let footer_parts := footer_parts ++ ["*Analysis completed at " ++ ts ++ "*"]
  if footer_parts.isEmpty then none else some (pyJoin "\n" footer_parts)

/-- `_format_error_response`. -/
def format_error_response (r : AnalysisResult) : String :=
  let error_parts :=
    [assocLookup emoji_map "error" "âŒ" ++ " **Analysis Error**", "",
     "I encountered an issue while analyzing your Power BI data.", ""]
  let error_parts :=
    match r.error_message with
    | some msg => error_parts ++ ["**Error Details**: " ++ msg, ""]
    | none => error_parts
  let error_parts := error_parts ++
    [assocLookup emoji_map "insight" "ðŸ’¡" ++ " **Suggestions**:",
     "â€¢ Check your Power BI data connections",
     "â€¢ Verify dataset permissions",
     "â€¢ Try rephrasing your question",
     "â€¢ Contact your administrator if the issue persists",
     "",
     "I'm ready to help once the issue is resolved!"]
  pyJoin "\n" error_parts

/-- `format_analysis_result`: the error rendering on failure, otherwise
the join of the non-empty sections (every piece is total, so the
method's `except` fallback is unreachable).  `ts` is the wall-clock
reading the footer embeds. -/
def format_analysis_result (opts : FormattingOptions) (ts : String) (r : AnalysisResult) :
    String :=
  if !r.success then format_error_response r
  else
    let sections := if opts.use_emojis then [create_header_section opts r] else []
    let sections :=
      if opts.include_executive_summary then
        match create_executive_summary r with
        | some s => sections ++ [s]
        | none => sections
      else sections
    let sections :=
      match create_insights_section r with
      | some s => sections ++ [s]
      | none => sections
    let sections :=
      if opts.include_recommendations then
        match create_recommendations_section r with
        | some s => sections ++ [s]
        | none => sections
      else sections
    let sections :=
      if opts.include_data_summary then
        match create_data_summary_section r with
        | some s => sections ++ [s]
        | none => sections
      else sections
    let sections :=
      match create_footer_section ts r with
      | some s => sections ++ [s]
      | none => sections
    pyJoin "\n\n" sections

/-! ### Intelligent MCP tools (`modules/mcp/intelligent_tools.py`) -/

/-- The `context_used` summary of `smart_dax_generation`'s reply. -/
structure ContextUsed where
  datasets : Nat
  intent : String
  complexity : String
deriving Repr, DecidableEq

/-- The dictionary `smart_dax_generation` returns. -/
structure SmartDaxResult where
  success : Bool
  dax_query : String := ""
  alternatives : List String := []
  explanation : String := ""
  confidence : ℚ := 0.5
  context_used : Option ContextUsed := none
  error : Option String := none
deriving Repr, DecidableEq

/-- `IntelligentPowerBIAnalyzer.smart_dax_generation` on the configured
path (reasoning engine and OpenAI client available): build context, ask
the DAX channel, and read the reply's fields with the `.get` defaults —
`success` is set to `True` regardless of what the reply contains. -/
def smart_dax_generation (env : AIEnv) (history : List HistoryEntry)
    (natural_language_request : String) (dataset_context : String := "auto") : SmartDaxResult :=
  let _ := dataset_context
  let context := (build_context env.catalog history env.now env.now_ts
    natural_language_request).1
  let schema_context : DaxSchemaContext :=
    { tables := context.relevant_datasets.map (·.name)
      workspace_names := context.relevant_datasets.map (·.workspace_name)
      intent := context.intent
      business_domain := context.business_context.domain }
  let dax_result := generate_dax_query env natural_language_request schema_context
  { success := true
    dax_query := dax_result.primary_query.getD ""
    alternatives := dax_result.alternative_queries.getD []
    explanation := dax_result.explanation.getD ""
    confidence := dax_result.confidence.getD 0.5
    context_used := some
      { datasets := context.relevant_datasets.length
        intent := context.intent
        complexity := context.estimated_complexity } }

/-! ### Spec-side reformulations (for the refinement claims) -/

/-- The relevance-scoring formula as the specification words it: `0.3`
per search term occurring in the lowercased dataset name (every match
counts), plus the fixed per-intent keyword weight for each
intent-specific term occurring in the name, plus `0.2` if any search
term occurs in the owning workspace's name, clamped to at most `1.0`.
To be compared against `calculate_dataset_relevance`. -/
def relevance_score_spec (dataset : DatasetInfo) (search_terms : List String)
    (intent : String) : ℚ :=
  let name_lower := pyLower dataset.name
  min
    ((0.3 : ℚ) * search_terms.countP (fun term => strContains name_lower term)
      + ((assocLookup intent_weights intent []).map
          (fun kw => if strContains name_lower kw.1 then kw.2 else 0)).sum
      + (if search_terms.any (fun term => strContains (pyLower dataset.workspace_name) term)
          then (0.2 : ℚ) else 0))
    1

/-- The intent keyword buckets in the priority order the specification
pins (sales, performance, trend, comparison, ranking, customer,
product, geographic, financial). -/
def intent_buckets : List (String × List String) :=
  [("sales_analysis", ["sales", "revenue", "profit", "income"]),
   ("performance_analysis", ["performance", "kpi", "metric", "target"]),
   ("trend_analysis", ["trend", "growth", "change", "over time", "quarterly", "monthly"]),
   ("comparison_analysis", ["compare", "vs", "versus", "difference", "better", "worse"]),
   ("ranking_analysis", ["top", "bottom", "best", "worst", "highest", "lowest"]),
   ("customer_analysis", ["customer", "client", "account", "segment"]),
   ("product_analysis", ["product", "item", "category", "inventory"]),
   ("geographic_analysis", ["region", "country", "state", "city", "location", "geographic"]),
   ("financial_analysis", ["budget", "cost", "expense", "margin", "roi", "financial"])]

/-- Intent classification as the specification words it: the first
bucket, in the fixed priority order, with a keyword occurring in the
lowercased question wins; otherwise `general_analysis`.  To be compared
against `classify_intent`. -/
def classify_intent_spec (user_query : String) : String :=
  match intent_buckets.find?
      (fun bucket => bucket.2.any (fun w => strContains (pyLower user_query) w)) with
  | some bucket => bucket.1
  | none => "general_analysis"


/-! ### Concrete fixtures used by witnesses and counterexamples -/

/-- A catalog whose listing calls raise (models a connection failure
reaching `_build_powerbi_context`'s `try`). -/
def failing_catalog : Catalog :=
  { get_workspaces := Except.error "Connection failed"
    get_datasets := fun _ => Except.error "Connection failed" }

/-- A catalog that lists no workspaces. -/
def empty_catalog : Catalog :=
  { get_workspaces := Except.ok []
    get_datasets := fun _ => Except.ok [] }

/-- A clock fixture. -/
def fixture_date : PyDate := { year := 2024, month := 5, iso := "2024-05-01T00:00:00" }

/-- An environment whose language-model channels all fail, whose catalog
is empty and whose query executor reports a failure for every query. -/
def degraded_env : AIEnv :=
  { catalog := empty_catalog
    reasoning_reply := fun _ _ => Except.error "503"
    dax_reply := fun _ _ => Except.error "503"
    analyze_reply := fun _ _ => Except.error "503"
    format_reply := fun _ _ => Except.error "503"
    execute_dax := fun _ _ => { success := false, error := some "Query failed" }
    now := fixture_date
    now_ts := 0 }

/-- A dataset fixture. -/
def fixture_dataset : DatasetInfo :=
  { id := "d1", name := "Sales Data", workspace_id := "w1", workspace_name := "Finance"
    relevance_score := 0.8 }

/-- A context fixture holding exactly one relevant dataset. -/
def fixture_context : PowerBIContext :=
  { query := "show sales", intent := "sales_analysis"
    relevant_datasets := [fixture_dataset] }

/-- A plan fixture holding exactly one candidate query. -/
def fixture_thinking : ThinkingProcess :=
  { user_intent := "sales_analysis", analysis_plan := ["step"], context_summary := ""
    reasoning_steps := ["step"], dax_queries := ["EVALUATE T"], confidence_score := 0.7
    timestamp := 0 }

/-- A successful `AnalysisResult` fixture for the formatter. -/
def fixture_result : AnalysisResult :=
  { thinking := fixture_thinking
    response := "All fine."
    data := []
    confidence := 0.7
    datasets_used := []
    success := true }

/-! ### Theorems -/

/-- C1: for every question string (including empty and whitespace-only
ones), every analysis depth and every behavior of the five stages,
`analyze_request` is total ("never raises") and returns an
`AnalysisResult` with the success flag set: either every stage
succeeded and `success = true` with no error message, or the first
raising stage's error is caught once at the orchestrator boundary and
converted into the terminal outcome — `success = false`, the error
message, a degenerate plan whose intent is the raw question, whose
reasoning is the single step describing the error, and whose confidence
is `0.0`, plus the locally built error-explanation response text. -/
theorem analyze_total_and_error_boundary
    (stage_context : Except String PowerBIContext)
    (stage_reasoning : PowerBIContext → Except String ThinkingProcess)
    (stage_execute : PowerBIContext → ThinkingProcess → Except String ExecResults)
    (stage_insights : PowerBIContext → ThinkingProcess → ExecResults → Except String Insights)
    (stage_format : ThinkingProcess → Insights → Except String String)
    (user_query : String) (now_ts : Nat) :
    (∃ v, analyze_run stage_context stage_reasoning stage_execute stage_insights stage_format
        = Except.ok v
      ∧ (analyze_pipeline stage_context stage_reasoning stage_execute stage_insights stage_format
          user_query now_ts).success = true
      ∧ (analyze_pipeline stage_context stage_reasoning stage_execute stage_insights stage_format
          user_query now_ts).error_message = none)
    ∨ (∃ e, analyze_run stage_context stage_reasoning stage_execute stage_insights stage_format
        = Except.error e
      ∧ analyze_pipeline stage_context stage_reasoning stage_execute stage_insights stage_format
          user_query now_ts
        = { thinking :=
              { user_intent := user_query
                analysis_plan := ["Error occurred during analysis"]
                context_summary := "Analysis failed"
                reasoning_steps := ["Error: " ++ e]
                dax_queries := []
                confidence_score := 0.0
                timestamp := now_ts }
            response := create_error_response e
            success := false
            error_message := some e }) := by
  cases h : analyze_run stage_context stage_reasoning stage_execute stage_insights stage_format with
  | ok v =>
    left
    refine ⟨v, rfl, ?_, ?_⟩ <;> simp [analyze_pipeline, h]
  | error e =>
    right
    refine ⟨e, rfl, ?_⟩
    simp [analyze_pipeline, h]

/-- C6: the context-quality multiplier is `0.5` plus the additive
bonuses, capped at `1.0`, hence always within `[0.5, 1.0]`; the
orchestrator applies it as `confidence = min(confidence × multiplier,
1.0)`, so a plan confidence within `[0, 1]` stays within `[0, 1]` after
the rescale. -/
theorem confidence_rescale_bounds (ctx : PowerBIContext) (thinking : ThinkingProcess) :
    (1/2 : ℚ) ≤ assess_context_quality ctx
    ∧ assess_context_quality ctx ≤ 1
    ∧ (enhance_thinking_with_context ctx thinking).confidence_score
        = min (thinking.confidence_score * assess_context_quality ctx) 1
    ∧ (0 ≤ thinking.confidence_score → thinking.confidence_score ≤ 1 →
        0 ≤ (enhance_thinking_with_context ctx thinking).confidence_score
        ∧ (enhance_thinking_with_context ctx thinking).confidence_score ≤ 1) := by
  have hlo : (1/2 : ℚ) ≤ assess_context_quality ctx := by
    unfold assess_context_quality
    split_ifs <;> norm_num
  have hhi : assess_context_quality ctx ≤ 1 := by
    unfold assess_context_quality
    exact le_trans (min_le_right _ (1.0 : ℚ)) (by norm_num)
  have happ : (enhance_thinking_with_context ctx thinking).confidence_score
      = min (thinking.confidence_score * assess_context_quality ctx) 1 := by
    unfold enhance_thinking_with_context
    split_ifs <;> norm_num
  refine ⟨hlo, hhi, happ, fun h0 h1 => ?_⟩
  rw [happ]
  constructor
  · exact le_min (mul_nonneg h0 (le_trans (by norm_num) hlo)) (by norm_num)
  · exact min_le_right _ _

/-- C6 witness: the rescale bounds applied at a concrete context and
plan with confidence in `[0, 1]`. -/
theorem confidence_rescale_bounds_witness :
    0 ≤ (enhance_thinking_with_context { query := "sales", intent := "sales_analysis" }
          { user_intent := "sales", analysis_plan := [], context_summary := ""
            reasoning_steps := [], dax_queries := ["q"], confidence_score := 0.7
            timestamp := 0 }).confidence_score
    ∧ (enhance_thinking_with_context { query := "sales", intent := "sales_analysis" }
          { user_intent := "sales", analysis_plan := [], context_summary := ""
            reasoning_steps := [], dax_queries := ["q"], confidence_score := 0.7
            timestamp := 0 }).confidence_score ≤ 1 :=
  (confidence_rescale_bounds _ _).2.2.2 (by norm_num) (by norm_num)

/-- C10: when the language-model DAX channel fails for every prompt (so
`generate_dax_query` returns a dictionary carrying only an error
field), `smart_dax_generation` still reports `success = true` with an
empty query, empty alternatives and explanation, and the default
confidence `0.5` — the flag only means the pipeline ran. -/
theorem smart_dax_generation_error_defaults (env : AIEnv) (history : List HistoryEntry)
    (natural_language_request dataset_context msg : String)
    (hfail : ∀ intent sc, env.dax_reply intent sc = Except.error msg) :
    (smart_dax_generation env history natural_language_request dataset_context).success = true
    ∧ (smart_dax_generation env history natural_language_request dataset_context).dax_query = ""
    ∧ (smart_dax_generation env history natural_language_request dataset_context).alternatives
        = []
    ∧ (smart_dax_generation env history natural_language_request dataset_context).explanation
        = ""
    ∧ (smart_dax_generation env history natural_language_request dataset_context).confidence
        = 0.5 := by
  simp only [smart_dax_generation, generate_dax_query, hfail]
  simp

/-- Every member of the candidate list accumulated by
`found_datasets` is a scored dataset whose attached score is its
computed relevance, strictly above the `0.3` threshold. -/
theorem mem_found_datasets (cat : Catalog) (ctx : PowerBIContext) :
    ∀ x ∈ found_datasets cat ctx, ∃ ds,
      x = { ds with relevance_score :=
              calculate_dataset_relevance ds (searchTermsFor ctx) ctx.intent }
      ∧ calculate_dataset_relevance ds (searchTermsFor ctx) ctx.intent > 0.3 := by
  unfold found_datasets
  generalize searchTermsFor ctx = terms
  suffices h : ∀ (wss : List WorkspaceInfo) (acc : List DatasetInfo),
      (∀ x ∈ acc, ∃ ds,
        x = { ds with relevance_score := calculate_dataset_relevance ds terms ctx.intent }
        ∧ calculate_dataset_relevance ds terms ctx.intent > 0.3) →
      ∀ x ∈ wss.foldl
        (fun acc ws =>
          match cat.get_datasets ws.id with
          | .error _ => acc
          | .ok datasets =>
            acc ++ datasets.filterMap (fun ds =>
              let score := calculate_dataset_relevance ds terms ctx.intent
              if score > 0.3 then some { ds with relevance_score := score } else none))
        acc, ∃ ds,
        x = { ds with relevance_score := calculate_dataset_relevance ds terms ctx.intent }
        ∧ calculate_dataset_relevance ds terms ctx.intent > 0.3 by
    exact h ctx.available_workspaces [] (by simp)
  intro wss
  induction wss with
  | nil => intro acc hacc x hx; exact hacc x hx
  | cons ws rest ih =>
    intro acc hacc x hx
    refine ih _ ?_ x hx
    intro y hy
    cases hds : cat.get_datasets ws.id with
    | error e => simp only [hds] at hy; exact hacc y hy
    | ok datasets =>
      simp only [hds] at hy
      rcases List.mem_append.mp hy with hmem | hmem
      · exact hacc y hmem
      · rcases List.mem_filterMap.mp hmem with ⟨ds, _, hds2⟩
        by_cases hsc : calculate_dataset_relevance ds terms ctx.intent > 0.3
        · rw [if_pos hsc] at hds2
          exact ⟨ds, (Option.some_inj.mp hds2).symm, hsc⟩
        · rw [if_neg hsc] at hds2
          exact absurd hds2 (by simp)

/-- The relevance score is capped at `1.0` by construction. -/
theorem calculate_dataset_relevance_le_one (ds : DatasetInfo) (terms : List String)
    (intent : String) : calculate_dataset_relevance ds terms intent ≤ 1 := by
  unfold calculate_dataset_relevance
  exact min_le_right _ 1

/-- The complexity estimator only rewrites the complexity label and the
performance hints. -/
theorem estimate_complexity_relevant (ctx : PowerBIContext) :
    (estimate_complexity ctx).relevant_datasets = ctx.relevant_datasets := by
  unfold estimate_complexity
  dsimp only
  split_ifs <;> rfl

/-- The relevant-dataset list the whole `build_context` returns is the
one the Power BI step computed: no later step touches it. -/
theorem build_context_relevant_eq (cat : Catalog) (history : List HistoryEntry) (now : PyDate)
    (now_ts : Nat) (q : String) :
    (build_context cat history now now_ts q).1.relevant_datasets
      = (build_powerbi_context cat { query := q, intent := classify_intent q }).relevant_datasets
    := by
  unfold build_context build_business_context build_time_context build_historical_context
  simp [estimate_complexity_relevant]

/-- C2: `buildContext` is total ("never raises", every failure of the
catalog collaborator being absorbed internally) and the context it
returns holds at most 5 relevant datasets, each carrying a relevance
score of at most `1.0`. -/
theorem build_context_dataset_bounds (cat : Catalog) (history : List HistoryEntry)
    (now : PyDate) (now_ts : Nat) (q : String) :
    ((build_context cat history now now_ts q).1.relevant_datasets).length ≤ 5
    ∧ ((build_context cat history now now_ts q).1.relevant_datasets).Forall
        (fun ds => ds.relevance_score ≤ 1) := by
  rw [build_context_relevant_eq]
  unfold build_powerbi_context
  cases hws : cat.get_workspaces with
  | error e => simp
  | ok workspaces =>
    simp only [build_schema_context, find_relevant_datasets]
    constructor
    · exact List.length_take_le ..
    · rw [List.forall_iff_forall_mem]
      intro x hx
      have hx2 : x ∈ (found_datasets cat _).mergeSort
          (fun a b => b.relevance_score ≤ a.relevance_score) :=
        (List.take_sublist 5 _).mem hx
      have hx3 := List.mem_mergeSort.mp hx2
      rcases mem_found_datasets _ _ x hx3 with ⟨ds, hds, _⟩
      rw [hds]
      exact calculate_dataset_relevance_le_one ds _ _

/-- C2 witness: the bounds hold at a concrete catalog and question
(length is forced through the theorem, whose `Forall` component is a
conditional fact over members). -/
theorem build_context_dataset_bounds_witness :
    ((build_context
        { get_workspaces := Except.ok [{ id := "w1", name := "Finance" }]
          get_datasets := fun _ => Except.ok
            [{ id := "d1", name := "Sales Data", workspace_id := "w1"
               workspace_name := "Finance" }] }
        [] { year := 2024, month := 5, iso := "2024-05-01" } 0
        "show sales").1.relevant_datasets).length ≤ 5 :=
  (build_context_dataset_bounds _ _ _ _ _).1

/-- The keyword loop of `_calculate_dataset_relevance` adds `0.3` per
matching search term: it equals `0.3` times the match count. -/
theorem keyword_loop_counts (name_lower : String) (terms : List String) : ∀ a : ℚ,
    terms.foldl (fun score term => if strContains name_lower term then score + 0.3 else score) a
      = a + 0.3 * terms.countP (fun term => strContains name_lower term) := by
  induction terms with
  | nil => intro a; simp
  | cons t ts ih =>
    intro a
    simp only [List.foldl_cons, List.countP_cons]
    by_cases h : strContains name_lower t
    · rw [if_pos h, ih, if_pos h]
      push_cast
      ring
    · rw [if_neg h, ih, if_neg h]
      push_cast
      ring

/-- The intent-weight loop of `_calculate_dataset_relevance` adds the
weight of each matching intent keyword: it equals the sum of the
matching weights. -/
theorem weight_loop_sums (name_lower : String) (ws : List (String × ℚ)) : ∀ a : ℚ,
    ws.foldl (fun score kw => if strContains name_lower kw.1 then score + kw.2 else score) a
      = a + (ws.map (fun kw => if strContains name_lower kw.1 then kw.2 else 0)).sum := by
  induction ws with
  | nil => intro a; simp
  | cons w rest ih =>
    intro a
    simp only [List.foldl_cons, List.map_cons, List.sum_cons]
    by_cases h : strContains name_lower w.1
    · rw [if_pos h, ih, if_pos h]; ring
    · rw [if_neg h, ih, if_neg h]; ring

/-- C4: the relevance score is exactly the specification's formula —
`0.3` per search term found in the lowercased dataset name (every match
counts), plus the fixed per-intent keyword weights for intent terms
found in the name, plus `0.2` when a search term occurs in the owning
workspace's name, clamped to at most `1.0`; a dataset named
`Sales_Warehouse_2024` under `sales_analysis` with search terms
`["sales", "revenue"]` scores exactly `0.3 + 0.5 = 0.8`; and the
retained list keeps only datasets scoring strictly above `0.3`, sorted
descending by score, at most the top 5. -/
theorem relevance_scoring_formula :
    (∀ (ds : DatasetInfo) (terms : List String) (intent : String),
      calculate_dataset_relevance ds terms intent = relevance_score_spec ds terms intent)
    ∧ calculate_dataset_relevance
        { id := "d1", name := "Sales_Warehouse_2024", workspace_id := "w1"
          workspace_name := "Finance" } ["sales", "revenue"] "sales_analysis" = 0.8
    ∧ (∀ (cat : Catalog) (ctx : PowerBIContext),
        ((find_relevant_datasets cat ctx).relevant_datasets).Forall
          (fun ds => 0.3 < ds.relevance_score ∧ ds.relevance_score ≤ 1)
        ∧ List.Pairwise (fun a b => b.relevance_score ≤ a.relevance_score)
            ((find_relevant_datasets cat ctx).relevant_datasets)
        ∧ ((find_relevant_datasets cat ctx).relevant_datasets).length ≤ 5) := by
  have hformula : ∀ (ds : DatasetInfo) (terms : List String) (intent : String),
      calculate_dataset_relevance ds terms intent = relevance_score_spec ds terms intent := by
    intro ds terms intent
    unfold calculate_dataset_relevance relevance_score_spec
    dsimp only
    rw [keyword_loop_counts, weight_loop_sums]
    split_ifs <;> ring_nf
  refine ⟨hformula, ?_, ?_⟩
  · rw [hformula]
    have h1 : strContains (pyLower "Sales_Warehouse_2024") "sales" = true := by decide
    have h2 : strContains (pyLower "Sales_Warehouse_2024") "revenue" = false := by decide
    have h3 : strContains (pyLower "Sales_Warehouse_2024") "order" = false := by decide
    have h4 : (["sales", "revenue"].any fun term => strContains (pyLower "Finance") term)
        = false := by decide
    unfold relevance_score_spec intent_weights
    simp [assocLookup, h1, h2, h3, h4]
    norm_num [min_def]
  · intro cat ctx
    have hsorted : List.Pairwise (fun a b => b.relevance_score ≤ a.relevance_score)
        ((find_relevant_datasets cat ctx).relevant_datasets) := by
      unfold find_relevant_datasets
      dsimp only
      refine List.Pairwise.sublist (List.take_sublist 5 _) ?_
      have := @List.sorted_mergeSort DatasetInfo
        (fun a b : DatasetInfo => decide (b.relevance_score ≤ a.relevance_score))
        (fun a b c hab hbc => by
          simp only [decide_eq_true_eq] at *
          exact le_trans hbc hab)
        (fun a b => by
          simp only [Bool.or_eq_true, decide_eq_true_eq]
          exact le_total _ _)
        (found_datasets cat ctx)
      exact this.imp (fun h => of_decide_eq_true h)
    refine ⟨?_, hsorted, ?_⟩
    · rw [List.forall_iff_forall_mem]
      intro x hx
      unfold find_relevant_datasets at hx
      dsimp only at hx
      have hx2 := List.mem_mergeSort.mp ((List.take_sublist 5 _).mem hx)
      rcases mem_found_datasets _ _ x hx2 with ⟨ds, hds, hgt⟩
      rw [hds]
      exact ⟨hgt, calculate_dataset_relevance_le_one ds _ _⟩
    · unfold find_relevant_datasets
      dsimp only
      exact List.length_take_le ..

/-- C5: intent classification is a deterministic function of the
question text alone and equals first-match lookup over the fixed bucket
order (sales, performance, trend, comparison, ranking, customer,
product, geographic, financial, else general); any question containing
a sales keyword classifies as `sales_analysis` because that bucket is
checked first, so for a question with both "trend" and "sales" the
earlier bucket wins. -/
theorem intent_classification_first_match :
    (∀ q, classify_intent q = classify_intent_spec q)
    ∧ (∀ q, strContains (pyLower q) "sales" = true → classify_intent q = "sales_analysis")
    ∧ classify_intent "Show me the sales trend" = "sales_analysis"
    ∧ classify_intent "Show me the monthly trend" = "trend_analysis" := by
  refine ⟨?_, ?_, by decide, by decide⟩
  · intro q
    unfold classify_intent classify_intent_spec intent_buckets
    dsimp only
    cases h1 : List.any ["sales", "revenue", "profit", "income"] (fun w => strContains (pyLower q) w) with
    | true => simp [List.find?, h1]
    | false =>
      cases h2 : List.any ["performance", "kpi", "metric", "target"] (fun w => strContains (pyLower q) w) with
      | true => simp [List.find?, h1, h2]
      | false =>
        cases h3 : List.any ["trend", "growth", "change", "over time", "quarterly", "monthly"] (fun w => strContains (pyLower q) w) with
        | true => simp [List.find?, h1, h2, h3]
        | false =>
          cases h4 : List.any ["compare", "vs", "versus", "difference", "better", "worse"] (fun w => strContains (pyLower q) w) with
          | true => simp [List.find?, h1, h2, h3, h4]
          | false =>
            cases h5 : List.any ["top", "bottom", "best", "worst", "highest", "lowest"] (fun w => strContains (pyLower q) w) with
            | true => simp [List.find?, h1, h2, h3, h4, h5]
            | false =>
              cases h6 : List.any ["customer", "client", "account", "segment"] (fun w => strContains (pyLower q) w) with
              | true => simp [List.find?, h1, h2, h3, h4, h5, h6]
              | false =>
                cases h7 : List.any ["product", "item", "category", "inventory"] (fun w => strContains (pyLower q) w) with
                | true => simp [List.find?, h1, h2, h3, h4, h5, h6, h7]
                | false =>
                  cases h8 : List.any ["region", "country", "state", "city", "location", "geographic"] (fun w => strContains (pyLower q) w) with
                  | true => simp [List.find?, h1, h2, h3, h4, h5, h6, h7, h8]
                  | false =>
                    cases h9 : List.any ["budget", "cost", "expense", "margin", "roi", "financial"] (fun w => strContains (pyLower q) w) with
                    | true => simp [List.find?, h1, h2, h3, h4, h5, h6, h7, h8, h9]
                    | false =>
                      simp [List.find?, h1, h2, h3, h4, h5, h6, h7, h8, h9]
  · intro q h
    unfold classify_intent
    simp [List.any_cons, h]

/-- C5 witness: the sales-keyword hypothesis discharged on a question
containing both a trend keyword and a sales keyword. -/
theorem intent_classification_first_match_witness :
    classify_intent "quarterly sales growth" = "sales_analysis" :=
  intent_classification_first_match.2.1 "quarterly sales growth" (by decide)

/-- With no relevant dataset in context, the execution stage runs no
query at all (each loop iteration skips, and the fallback probe also
requires a dataset). -/
theorem execute_plan_no_datasets (env : AIEnv) (thinking : ThinkingProcess)
    (ctx : PowerBIContext) (h : ctx.relevant_datasets = []) :
    execute_analysis_plan env thinking ctx = {} := by
  have hstep : ∀ acc i q, execute_plan_step env ctx acc i q = acc := by
    intro acc i q
    unfold execute_plan_step
    rw [h]
  have hloop : ∀ (l : List (Nat × String)) acc,
      l.foldl (fun acc iq => execute_plan_step env ctx acc iq.1 iq.2) acc = acc := by
    intro l
    induction l with
    | nil => intro acc; rfl
    | cons x xs ih => intro acc; rw [List.foldl_cons, hstep]; exact ih acc
  unfold execute_analysis_plan
  rw [hloop, h]
  rfl

/-- C7: when context assembly finds zero relevant datasets (and, as in
the concrete pipeline, no stage raises), `analyze` still returns
`success = true` with empty row data; and the insight stage
short-circuits on empty rows, returning the canned no-data insight set
whatever the language-model endpoint would reply — it is never
consulted. -/
theorem zero_datasets_still_succeeds (env : AIEnv) (history : List HistoryEntry)
    (q depth : String)
    (h : (build_context env.catalog history env.now env.now_ts q).1.relevant_datasets = []) :
    (analyze_request env history q depth).success = true
    ∧ (analyze_request env history q depth).data = []
    ∧ (∀ (env2 : AIEnv) (results : ExecResults) (ctx : PowerBIContext)
        (thinking : ThinkingProcess), results.data = [] →
          generate_insights env2 results ctx thinking = no_data_insights) := by
  have hplan := execute_plan_no_datasets env
    (internal_reasoning env q (build_context env.catalog history env.now env.now_ts q).1) _ h
  refine ⟨rfl, ?_, ?_⟩
  · have hdata : (analyze_request env history q depth).data
        = (execute_analysis_plan env
            (internal_reasoning env q
              (build_context env.catalog history env.now env.now_ts q).1)
            (build_context env.catalog history env.now env.now_ts q).1).data := rfl
    rw [hdata, hplan]
  · intro env2 results ctx thinking h2
    unfold generate_insights
    rw [h2]
    rfl

/-- C7 witness: a catalog listing no workspaces yields a context with
zero relevant datasets, and the degraded pipeline still succeeds with
empty data. -/
theorem zero_datasets_still_succeeds_witness :
    (analyze_request degraded_env [] "hello" "standard").success = true
    ∧ (analyze_request degraded_env [] "hello" "standard").data = [] :=
  ⟨(zero_datasets_still_succeeds degraded_env [] "hello" "standard" (by
      rw [build_context_relevant_eq]
      simp [build_powerbi_context, degraded_env, empty_catalog, find_relevant_datasets,
        found_datasets, build_schema_context])).1,
   (zero_datasets_still_succeeds degraded_env [] "hello" "standard" (by
      rw [build_context_relevant_eq]
      simp [build_powerbi_context, degraded_env, empty_catalog, find_relevant_datasets,
        found_datasets, build_schema_context])).2.1⟩

/-- One execution-loop iteration, when a primary dataset exists,
appends exactly the query's result and the successful rows. -/
theorem execute_plan_step_fields (env : AIEnv) (ctx : PowerBIContext) (d : DatasetInfo)
    (rest : List DatasetInfo) (h : ctx.relevant_datasets = d :: rest) (acc : ExecResults)
    (i : Nat) (q : String) :
    (execute_plan_step env ctx acc i q).query_results
        = acc.query_results ++ [env.execute_dax d.id q]
    ∧ (execute_plan_step env ctx acc i q).data
        = acc.data ++ (if (env.execute_dax d.id q).success && (env.execute_dax d.id q).dataTruthy
            then (env.execute_dax d.id q).data.getD [] else []) := by
  unfold execute_plan_step
  rw [h]
  dsimp only
  by_cases hc : (env.execute_dax d.id q).success && (env.execute_dax d.id q).dataTruthy
  · rw [if_pos hc, if_pos hc]
    exact ⟨rfl, rfl⟩
  · rw [if_neg hc, if_neg hc]
    exact ⟨rfl, by simp⟩

/-- The rows the specification says the loop accumulates: the
concatenation of the row lists of the successful results, in plan
order. -/
def successful_rows (qrs : List QueryResult) : List Row :=
  ((qrs.filter (fun qr => qr.success && qr.dataTruthy)).map (fun qr => qr.data.getD [])).flatten

/-- The execution loop collects one `QueryResult` per planned query, in
plan order, against the primary dataset, concatenating successful rows. -/
theorem execute_plan_loop_spec (env : AIEnv) (ctx : PowerBIContext) (d : DatasetInfo)
    (rest : List DatasetInfo) (h : ctx.relevant_datasets = d :: rest) :
    ∀ (queries : List String) (n : Nat) (acc : ExecResults),
      (((queries.enumFrom n).foldl (fun acc iq => execute_plan_step env ctx acc iq.1 iq.2)
          acc).query_results
        = acc.query_results ++ queries.map (fun q => env.execute_dax d.id q))
      ∧ (((queries.enumFrom n).foldl (fun acc iq => execute_plan_step env ctx acc iq.1 iq.2)
          acc).data
        = acc.data ++ successful_rows (queries.map (fun q => env.execute_dax d.id q))) := by
  intro queries
  induction queries with
  | nil => intro n acc; simp [successful_rows]
  | cons q qs ih =>
    intro n acc
    rw [List.enumFrom_cons, List.foldl_cons]
    rcases ih (n + 1) (execute_plan_step env ctx acc n q) with ⟨ih1, ih2⟩
    rcases execute_plan_step_fields env ctx d rest h acc n q with ⟨hq, hd⟩
    constructor
    · rw [ih1, hq, List.map_cons, List.append_assoc]
      rfl
    · rw [ih2, hd, List.map_cons]
      unfold successful_rows
      rw [List.filter_cons]
      by_cases hc : (env.execute_dax d.id q).success && (env.execute_dax d.id q).dataTruthy
      · rw [if_pos hc, if_pos hc, List.map_cons, List.flatten_cons, List.append_assoc]
      · rw [if_neg hc, if_neg hc, List.append_nil]

/-- C3: with a primary (highest-relevance) dataset in context, stage 3
executes every candidate query of the plan against it, in plan order,
collecting one `QueryResult` per query and concatenating the successful
rows; and exactly when the planned queries yielded zero query results —
with a dataset present this happens precisely when the plan carried no
query — it executes exactly one additional fallback probe (a trivial
row describing the dataset) against that same dataset. -/
theorem plan_execution_and_fallback (env : AIEnv) (thinking : ThinkingProcess)
    (ctx : PowerBIContext) (d : DatasetInfo) (rest : List DatasetInfo)
    (h : ctx.relevant_datasets = d :: rest) :
    (thinking.dax_queries ≠ [] →
      (execute_analysis_plan env thinking ctx).query_results
          = thinking.dax_queries.map (fun q => env.execute_dax d.id q)
      ∧ (execute_analysis_plan env thinking ctx).data
          = successful_rows (thinking.dax_queries.map (fun q => env.execute_dax d.id q)))
    ∧ (thinking.dax_queries = [] →
      (execute_analysis_plan env thinking ctx).query_results
          = [env.execute_dax d.id ("EVALUATE ROW(\"Dataset\", \"" ++ d.name
              ++ "\", \"Workspace\", \"" ++ d.workspace_name ++ "\")")]) := by
  have hloop := execute_plan_loop_spec env ctx d rest h thinking.dax_queries 0 {}
  constructor
  · intro hne
    unfold execute_analysis_plan
    rw [List.enum]
    rcases hloop with ⟨h1, h2⟩
    have hnonempty : (thinking.dax_queries.map (fun q => env.execute_dax d.id q)) ≠ [] := by
      simpa using hne
    rw [if_neg]
    · exact ⟨by simpa using h1, by simpa using h2⟩
    · simp only [h1, Bool.and_eq_true]
      intro hcontra
      exact hnonempty (by simpa using hcontra.1)
  · intro hempty
    unfold execute_analysis_plan
    rw [List.enum, hempty]
    rw [if_pos]
    · unfold execute_fallback_analysis
      rw [h]
      dsimp only
      split_ifs <;> rfl
    · simp [h]

/-- C3 witness: one failing planned query against the fixture dataset
yields exactly its one result, in order, with no rows. -/
theorem plan_execution_and_fallback_witness :
    (execute_analysis_plan degraded_env fixture_thinking fixture_context).query_results
      = fixture_thinking.dax_queries.map
          (fun q => degraded_env.execute_dax fixture_dataset.id q)
    ∧ (execute_analysis_plan degraded_env fixture_thinking fixture_context).data
      = successful_rows (fixture_thinking.dax_queries.map
          (fun q => degraded_env.execute_dax fixture_dataset.id q)) :=
  (plan_execution_and_fallback degraded_env fixture_thinking fixture_context fixture_dataset []
    rfl).1 (by decide)

/-- Every per-intent complexity base weight is below `1`. -/
theorem intent_complexity_lt_one (intent : String) :
    assocLookup intent_complexity intent 0.5 < 1 := by
  simp only [intent_complexity, assocLookup]
  split_ifs <;> norm_num

/-- With no relevant dataset and no schema table, the complexity
estimator lands in the `Low` bucket and replaces the performance hints
with that bucket's canned hints. -/
theorem estimate_complexity_low (ctx : PowerBIContext) (h1 : ctx.relevant_datasets = [])
    (h2 : ctx.schema_info.tables = []) :
    estimate_complexity ctx
      = { ctx with estimated_complexity := "Low"
                   performance_hints := ["Simple query expected", "Fast execution likely"] } := by
  have hscore : complexityScore ctx < 1.0 := by
    unfold complexityScore
    rw [h1, h2]
    have := intent_complexity_lt_one ctx.intent
    simp only [List.length_nil, List.map_nil, List.sum_nil, Nat.cast_zero, zero_mul, zero_add,
      min_def]
    split_ifs <;> norm_num <;> linarith
  unfold estimate_complexity
  dsimp only
  rw [if_pos hscore]

/-- C9 (amended): on an I/O failure while listing the catalog,
`buildContext` still succeeds and its context carries an empty
relevant-dataset list; but the degraded-context hint appended inside
`_build_powerbi_context`'s error handler is afterwards overwritten when
`_estimate_complexity` replaces `performance_hints`, so the returned
hints are the canned Low-complexity hints and do not record the
connection problem. -/
theorem degraded_context_hint_overwritten (cat : Catalog) (history : List HistoryEntry)
    (now : PyDate) (now_ts : Nat) (q e : String)
    (h : cat.get_workspaces = Except.error e) :
    (build_context cat history now now_ts q).1.relevant_datasets = []
    ∧ (build_context cat history now now_ts q).1.performance_hints
        = ["Simple query expected", "Fast execution likely"]
    ∧ "Limited Power BI context due to connection issues"
        ∉ (build_context cat history now now_ts q).1.performance_hints := by
  have hmain : (build_context cat history now now_ts q).1
      = estimate_complexity
          ((build_historical_context history now_ts
            (build_time_context now
              (build_business_context
                { query := q, intent := classify_intent q
                  performance_hints := [] ++
                    ["Limited Power BI context due to connection issues"] }))).1) := by
    unfold build_context build_powerbi_context
    rw [h]
  rw [hmain, estimate_complexity_low _ rfl rfl]
  refine ⟨rfl, rfl, ?_⟩
  show "Limited Power BI context due to connection issues"
    ∉ ["Simple query expected", "Fast execution likely"]
  decide

/-- C9 counterexample: with a failing catalog, the claimed degradation
hint is absent from the returned context's performance hints (they are
the canned Low-complexity hints), even though the relevant-dataset
list is empty as claimed. -/
theorem degraded_context_hint_overwritten_counterexample :
    (build_context failing_catalog [] fixture_date 0 "show data").1.relevant_datasets = []
    ∧ "Limited Power BI context due to connection issues"
        ∉ (build_context failing_catalog [] fixture_date 0 "show data").1.performance_hints :=
  ⟨(degraded_context_hint_overwritten failing_catalog [] fixture_date 0 "show data"
      "Connection failed" rfl).1,
   (degraded_context_hint_overwritten failing_catalog [] fixture_date 0 "show data"
      "Connection failed" rfl).2.2⟩

/-- C9 witness: the amended statement applied to the failing catalog. -/
theorem degraded_context_hint_overwritten_witness :
    (build_context failing_catalog [] fixture_date 0 "show data").1.performance_hints
      = ["Simple query expected", "Fast execution likely"] :=
  (degraded_context_hint_overwritten failing_catalog [] fixture_date 0 "show data"
    "Connection failed" rfl).2.1

/-- Left cancellation for string concatenation. -/
theorem str_append_left_cancel (a b c : String) : a ++ b = a ++ c ↔ b = c := by
  constructor
  · intro h
    have hd := congrArg String.data h
    simp only [String.data_append] at hd
    exact String.ext (List.append_cancel_left hd)
  · intro h; rw [h]

/-- Right cancellation for string concatenation. -/
theorem str_append_right_cancel (a b c : String) : a ++ c = b ++ c ↔ a = b := by
  constructor
  · intro h
    have hd := congrArg String.data h
    simp only [String.data_append] at hd
    exact String.ext (List.append_cancel_right hd)
  · intro h; rw [h]

/-- `pyJoin` over a cons with a non-empty tail. -/
theorem pyJoin_cons_of_ne_nil (sep x : String) (l : List String) (h : l ≠ []) :
    pyJoin sep (x :: l) = x ++ sep ++ pyJoin sep l := by
  cases l with
  | nil => exact absurd rfl h
  | cons y t => rfl

/-- Joining a common section list followed by one varying section is
injective in the varying section. -/
theorem pyJoin_append_singleton (sep : String) :
    ∀ (xs : List String) (a b : String),
      pyJoin sep (xs ++ [a]) = pyJoin sep (xs ++ [b]) ↔ a = b := by
  intro xs
  induction xs with
  | nil => intro a b; exact Iff.rfl
  | cons x t ih =>
    intro a b
    rw [List.cons_append, List.cons_append,
      pyJoin_cons_of_ne_nil sep x (t ++ [a]) (by simp),
      pyJoin_cons_of_ne_nil sep x (t ++ [b]) (by simp),
      str_append_left_cancel]
    exact ih a b

/-- The footer always consists of a timestamp-free prefix followed by
the embedded `datetime.now()` rendering. -/
theorem create_footer_section_eq (r : AnalysisResult) : ∃ P, ∀ ts,
    create_footer_section ts r = some ((P ++ "*Analysis completed at " ++ ts) ++ "*") := by
  cases hws : r.warnings with
  | nil =>
    refine ⟨"", fun ts => ?_⟩
    have h1 : create_footer_section ts r = some ("*Analysis completed at " ++ ts ++ "*") := by
      simp [create_footer_section, hws, pyJoin]
    rw [h1]
    congr 1
  | cons w t =>
    refine ⟨assocLookup emoji_map "warning" "âš ï¸" ++ " *" ++ pyJoin "; " (w :: t) ++ "*"
      ++ "\n", fun ts => ?_⟩
    have h1 : create_footer_section ts r
        = some (pyJoin "\n"
            [assocLookup emoji_map "warning" "âš ï¸" ++ " *" ++ pyJoin "; " (w :: t) ++ "*",
             "*Analysis completed at " ++ ts ++ "*"]) := by
      simp [create_footer_section, hws]
    rw [h1]
    congr 1
    apply String.ext
    simp [pyJoin, String.data_append]

/-- C8 (amended): the formatter is deterministic in the outcome
together with the clock reading its footer embeds.  On the success path
two formatting runs agree exactly when their rendered `datetime.now()`
timestamps agree (so runs in the same clock minute give identical text,
and runs in different minutes differ — only — in the footer); on the
error path the output never depends on the clock. -/
theorem formatter_deterministic_modulo_timestamp (opts : FormattingOptions)
    (r : AnalysisResult) (ts1 ts2 : String) :
    (r.success = true →
      (format_analysis_result opts ts1 r = format_analysis_result opts ts2 r ↔ ts1 = ts2))
    ∧ (r.success = false →
      format_analysis_result opts ts1 r = format_analysis_result opts ts2 r) := by
  obtain ⟨P, hP⟩ := create_footer_section_eq r
  constructor
  · intro hs
    unfold format_analysis_result
    rw [hP ts1, hP ts2]
    simp only [hs, Bool.not_true, Bool.false_eq_true, if_false]
    rw [pyJoin_append_singleton, str_append_right_cancel, str_append_left_cancel]
  · intro hs
    unfold format_analysis_result
    simp only [hs, Bool.not_false, if_true]

set_option maxRecDepth 8192 in
/-- C8 counterexample: formatting the same successful outcome twice, at
two clock readings one minute apart, yields different texts — the
formatter is not a function of the outcome alone, because the footer
embeds `datetime.now()`. -/
theorem formatter_not_time_free_counterexample :
    format_analysis_result {} "2024-05-01 10:00" fixture_result
      ≠ format_analysis_result {} "2024-05-01 10:01" fixture_result := by
  decide

/-- C8 witness: two runs with the same rendered timestamp produce
identical text. -/
theorem formatter_deterministic_witness :
    format_analysis_result {} "2024-05-01 10:00" fixture_result
      = format_analysis_result {} "2024-05-01 10:00" fixture_result :=
  ((formatter_deterministic_modulo_timestamp {} fixture_result
    "2024-05-01 10:00" "2024-05-01 10:00").1 rfl).mpr rfl

/-- C10 witness: with the always-failing DAX channel, the reply is
`success = true` with an empty query. -/
theorem smart_dax_generation_error_defaults_witness :
    (smart_dax_generation degraded_env [] "total sales" "auto").success = true
    ∧ (smart_dax_generation degraded_env [] "total sales" "auto").dax_query = "" :=
  ⟨(smart_dax_generation_error_defaults degraded_env [] "total sales" "auto" "503"
      (fun _ _ => rfl)).1,
   (smart_dax_generation_error_defaults degraded_env [] "total sales" "auto" "503"
      (fun _ _ => rfl)).2.1⟩
